import Mathlib

/-!
# VPMBench — shallow embedding and verification

A shallow embedding of the core of the VPMBench pipeline
(`vpmbench/plugin.py`, `vpmbench/api.py`, `vpmbench/data.py`,
`vpmbench/summaries.py`, `vpmbench/metrics.py`, `vpmbench/enums.py`)
together with proofs settling the specification claims.

Conventions of the embedding:

* pandas `DataFrame`s become lists of rows (`List VariantRow`,
  `List ScoreRow`); column names that matter are carried explicitly.
* Python `float` score values become `ℚ`; a possibly non-numeric cell
  is a `ScoreVal`.
* A raised exception becomes the `Except.error` branch of the
  corresponding function; the payload mirrors the information contained
  in the raised message (values that are interpolated into the message
  appear in the payload, values that are not do not).
* Calls to `warnings.warn` are recorded in a `warned`/warning-list
  component of the return value.
* The foreign scoring logic behind an entry point (a Python file run
  in-process, or a Docker container) is an external effect; it enters
  the embedding as an explicit function argument
  `entry : List VariantRow → Except String (List ScoreRow)`.
-/

namespace VPMBench

/-- `vpmbench.enums.VariationType` (values `snp`, `indel`, `conding`,
`non-coding`). -/
inductive VariationType where
  | snp
  | indel
  | coding
  | nonCoding
deriving DecidableEq, Repr

/-- `vpmbench.enums.ReferenceGenome` (values `hg38` … `hg16`). -/
inductive ReferenceGenome where
  | hg38
  | hg19
  | hg18
  | hg17
  | hg16
deriving DecidableEq, Repr

/-- Modelled from the spec: `PathogencityClass` is imported from
`vpmbench.enums` throughout the code base but its definition is
commented out in `src/vpmbench/enums.py`.  The spec (§4.8, Glossary)
fixes two classes, benign and pathogenic. -/
inductive PathogencityClass where
  | benign
  | pathogenic
deriving DecidableEq, Repr

/-- Modelled from the spec: `PathogencityClass.interpret` as documented
in the commented-out block of `src/vpmbench/enums.py` — `BENIGN → 0`,
`PATHOGENIC → 1`. -/
def PathogencityClass.interpret : PathogencityClass → ℤ
  | .benign => 0
  | .pathogenic => 1

/-- Modelled from the spec: `default_pathogencity_class_map` is imported
from `vpmbench.enums` by `vpmbench/summaries.py` but is missing from
`src/vpmbench/enums.py`.  Per the spec the default is the two-class
benign/pathogenic map with interpreted values 0 and 1. -/
def default_pathogencity_class_map : List (String × ℤ) :=
  [("benign", 0), ("pathogenic", 1)]

/-- One row of the variant information table
(`EvaluationData.variant_data`): columns UID, CHROM, POS, REF, ALT, RG,
TYPE. -/
structure VariantRow where
  UID : Nat
  CHROM : String
  POS : Nat
  REF : String
  ALT : String
  RG : ReferenceGenome
  TYPE : VariationType
deriving DecidableEq, Repr

/-- A cell of the SCORE column of a plugin's output table.  The pandera
schema in `Plugin._validate_score_table` coerces the column to `Float`;
a non-numeric cell makes the validation fail. -/
inductive ScoreVal where
  | num (q : ℚ)
  | other (s : String)
deriving DecidableEq, Repr

/-- Whether a score cell is numeric (coercible to `Float`). -/
def ScoreVal.isNum : ScoreVal → Bool
  | .num _ => true
  | .other _ => false

/-- One row of a plugin's raw output table: columns UID and SCORE. -/
structure ScoreRow where
  UID : Nat
  SCORE : ScoreVal
deriving DecidableEq, Repr

/-- The two entry-point variants built by `PluginBuilder`
(`PythonEntryPoint` / `DockerEntryPoint`).  Only the declarative data is
embedded; the foreign logic they run is an external effect. -/
inductive EntryPoint where
  | python (filePath : String)
  | docker (image : String) (runCommand : String)
      (inputFormat inputFilePath outputFormat outputFilePath : String)
      (bindings : List (String × String))
deriving DecidableEq, Repr

/-- `vpmbench.plugin.Plugin` (dataclass fields). -/
structure Plugin where
  name : String
  version : Option String
  supported_variations : List VariationType
  supported_chromosomes : List String
  reference_genome : ReferenceGenome
  databases : List String
  entry_point : EntryPoint
  cutoff : ℚ
  manifest_path : String
deriving DecidableEq, Repr

/-- `Plugin.score_column_name`: `f"{self.name}_SCORE"`. -/
def Plugin.score_column_name (p : Plugin) : String :=
  p.name ++ "_SCORE"

/-- The `RuntimeError`s raised by `Plugin.is_compatible_with_data`.
Each constructor carries exactly the data interpolated into the
corresponding message: the reference-genome message names only the
plugin, while the variation-type and chromosome messages additionally
enumerate the set difference of found minus supported values. -/
inductive CompatibilityError where
  | rgError (pluginName : String)
  | typeError (pluginName : String) (unsupported : List VariationType)
  | chromError (pluginName : String) (unsupported : List String)
deriving DecidableEq, Repr

/-- The values a `CompatibilityError` message enumerates (rendered as
strings, as they appear interpolated into the raised message).  The
reference-genome message interpolates no offending values. -/
def CompatibilityError.reportedValues : CompatibilityError → List String
  | .rgError _ => []
  | .typeError _ ts => ts.map (fun t => reprStr t)
  | .chromError _ cs => cs

/-- `Plugin.is_compatible_with_data` on a variant information table:

1. every row's RG must equal the plugin's reference genome, else a
   `RuntimeError` naming only the plugin is raised;
2. the set of TYPE values must be a subset of the supported variation
   types, else a `RuntimeError` enumerating `found - supported` is
   raised;
3. the set of CHROM values must be a subset of the supported
   chromosomes, else a `RuntimeError` enumerating `found - supported`
   is raised.

The sets `variant_types - supported` / `variant_chroms - supported` are
embedded as the deduplicated column filtered by non-membership. -/
def Plugin.is_compatible_with_data (p : Plugin) (rows : List VariantRow) :
    Except CompatibilityError Unit :=
  if !rows.all (fun r => r.RG == p.reference_genome) then
    .error (.rgError p.name)
  else if !(((rows.map (·.TYPE)).dedup).filter
      (fun t => !p.supported_variations.contains t)).isEmpty then
    .error (.typeError p.name
      (((rows.map (·.TYPE)).dedup).filter
        (fun t => !p.supported_variations.contains t)))
  else if !(((rows.map (·.CHROM)).dedup).filter
      (fun c => !p.supported_chromosomes.contains c)).isEmpty then
    .error (.chromError p.name
      (((rows.map (·.CHROM)).dedup).filter
        (fun c => !p.supported_chromosomes.contains c)))
  else
    .ok ()

/-- `Score.interpret` with an explicit cutoff: replace every value
strictly greater than the cutoff by 1, otherwise by 0
(`lambda value: 1 if value > cutoff else 0`). -/
def Score.interpret (data : List ℚ) (cutoff : ℚ) : List ℤ :=
  data.map (fun value => if value > cutoff then 1 else 0)

theorem Score.interpret_length (data : List ℚ) (cutoff : ℚ) :
    (Score.interpret data cutoff).length = data.length :=
  List.length_map _ _

/-- pandas' `&` on two boolean Series with default `RangeIndex`es: the
operands align on the union of the two indexes, and a position missing
from either side is filled with `False`. -/
def alignAnd : List Bool → List Bool → List Bool
  | [], ys => ys.map (fun _ => false)
  | _ :: as2, [] => false :: alignAnd as2 []
  | a :: as2, b :: bs => (a && b) :: alignAnd as2 bs

/-- `Plugin._validate_score_table`: the pandera schema's UID check is
`variants_uid.isin(x) & x.isin(variants_uid)` — two boolean Series over
the variant-table index and the score-table index respectively, so the
`&` aligns them on the index union, filling missing positions with
`False` (`alignAnd`); the check passes only when every aligned position
is `True`, which in particular forces the two tables to have the same
number of rows.  Separately every SCORE cell must be numeric
(`Column(Float, coerce=True)`). -/
def validate_score_table (variantUIDs : List Nat) (scoreTable : List ScoreRow) :
    Bool :=
  (alignAnd
    (variantUIDs.map (fun u => scoreTable.any (fun r => r.UID == u)))
    (scoreTable.map (fun r => variantUIDs.contains r.UID))).all (fun b => b) &&
  scoreTable.all (fun r => r.SCORE.isNum)

/-- The validated, renamed result of one plugin run: the UID column plus
the score column renamed to `Plugin.score_column_name`. -/
structure PluginResult where
  colName : String
  rows : List ScoreRow
deriving DecidableEq, Repr

/-- The exceptions that can escape `Plugin.run`: the `RuntimeError` of
the compatibility check, an exception from the foreign entry-point
logic (`ExecutionError`), or the pandera `SchemaErrors` of
`_validate_score_table` (which carries no plugin name). -/
inductive RunError where
  | compat (e : CompatibilityError)
  | exec (msg : String)
  | schema
deriving DecidableEq, Repr

/-- `Plugin.run`: check compatibility, run the entry point's foreign
logic (passed in as `entry`), validate the score table, and rename the
SCORE column to `score_column_name`. -/
def Plugin.run (p : Plugin)
    (entry : List VariantRow → Except String (List ScoreRow))
    (variant_information_table : List VariantRow) :
    Except RunError PluginResult :=
  match p.is_compatible_with_data variant_information_table with
  | .error e => .error (.compat e)
  | .ok () =>
    match entry variant_information_table with
    | .error msg => .error (.exec msg)
    | .ok score_table =>
      if validate_score_table (variant_information_table.map (·.UID))
          score_table then
        .ok ⟨p.score_column_name, score_table⟩
      else
        .error .schema

/-- A plugin paired with the foreign logic its entry point executes;
this is the unit `invoke_method` receives. -/
structure RunnablePlugin where
  plugin : Plugin
  entry : List VariantRow → Except String (List ScoreRow)

/-- `vpmbench.api.invoke_method`: run one plugin and pair the result
with the plugin. -/
def invoke_method (rp : RunnablePlugin) (variant_data : List VariantRow) :
    Except RunError (Plugin × PluginResult) :=
  (rp.plugin.run rp.entry variant_data).map (fun res => (rp.plugin, res))

/-- One row of `AnnotatedVariantData.annotated_variant_data`: the
variant columns plus one score cell per merged plugin, in merge
order. -/
structure AnnotatedRow where
  base : VariantRow
  cells : List ScoreVal
deriving DecidableEq, Repr

/-- `vpmbench.data.AnnotatedVariantData`. -/
structure AnnotatedVariantData where
  annotated_variant_data : List AnnotatedRow
  plugins : List Plugin
deriving Repr

/-- One `DataFrame.merge(..., on="UID")` step of
`AnnotatedVariantData.from_results`.  pandas' default join mode is
`how="inner"`: a left row is paired with every right row of equal UID
and is dropped when there is none. -/
def mergeStep (acc : List AnnotatedRow) (scores : List ScoreRow) :
    List AnnotatedRow :=
  acc.flatMap (fun ar =>
    (scores.filter (fun s => s.UID == ar.base.UID)).map
      (fun s => { ar with cells := ar.cells ++ [s.SCORE] }))

/-- `AnnotatedVariantData.from_results`: fold the plugin results over
the original variant data, merging each score table on UID with pandas'
default (inner) join. -/
def AnnotatedVariantData.from_results (original_variant_data : List VariantRow)
    (plugin_results : List (Plugin × PluginResult)) : AnnotatedVariantData :=
  { annotated_variant_data :=
      plugin_results.foldl (fun acc pr => mergeStep acc pr.2.rows)
        (original_variant_data.map (fun r => ⟨r, []⟩))
    plugins := plugin_results.map (·.1) }

/-- `vpmbench.api.invoke_methods`: dispatch `invoke_method` for every
plugin, then collect each job's result with `job.get()` in dispatch
order — a job whose plugin raised re-raises its exception here, so the
first failing plugin in list order aborts the collection — and merge
the collected results with `AnnotatedVariantData.from_results`. -/
def invoke_methods (plugins : List RunnablePlugin)
    (variant_data : List VariantRow) : Except RunError AnnotatedVariantData := do
  let plugin_results ← plugins.mapM (fun rp => invoke_method rp variant_data)
  pure (AnnotatedVariantData.from_results variant_data plugin_results)

/-! ## Summaries and metrics (`vpmbench/summaries.py`, `vpmbench/metrics.py`) -/

/-- The named cells of a two-class confusion matrix, in the order the
code unpacks `cm.ravel()` into (`tn, fp, fn, tp = cm.ravel()`). -/
structure ConfusionCells where
  tn : Nat
  fp : Nat
  fn : Nat
  tp : Nat
deriving DecidableEq, Repr

/-- The dictionary returned by `ConfusionMatrix.calculate`: the named
cells when the 4-way unpacking succeeded (`try ... except: pass`), the
raw matrix (`data`) and the label order (`labels`). -/
structure ConfusionMatrixResult where
  named : Option ConfusionCells
  data : List (List Nat)
  labels : List ℤ
deriving DecidableEq, Repr

/-- `sorted(list(set(pathogenicity_class_map.values())), reverse=True)`. -/
def sortedLabelsDesc (classMap : List (String × ℤ)) : List ℤ :=
  ((classMap.map Prod.snd).dedup.insertionSort (· ≤ ·)).reverse

/-- One cell of `sklearn.metrics.confusion_matrix`: the number of
samples with true label `a` and predicted label `b`. -/
def countCell (pairs : List (ℤ × ℤ)) (a b : ℤ) : Nat :=
  pairs.countP (fun x => x.1 == a && x.2 == b)

/-- `cm.ravel()` unpacked into four values; `none` when the matrix does
not have exactly four entries (the `except Exception: pass` branch). -/
def ravel4 : List Nat → Option ConfusionCells
  | [x0, x1, x2, x3] => some ⟨x0, x1, x2, x3⟩
  | _ => none

/-- `ConfusionMatrix.calculate`: interpret the scores with the plugin
cutoff, compute `sklearn.metrics.confusion_matrix` over the labels
sorted descending, and try to unpack the ravelled matrix into
`tn, fp, fn, tp`.  The second component records whether `warnings.warn`
was called: `ConfusionMatrix.calculate` contains no `warn` call, so it
is always `false`. -/
def ConfusionMatrix.calculate (scoreData : List ℚ) (cutoff : ℚ)
    (interpreted_classes : List ℤ) (classMap : List (String × ℤ)) :
    ConfusionMatrixResult × Bool :=
  let interpreted_values := Score.interpret scoreData cutoff
  let labels := sortedLabelsDesc classMap
  let pairs := interpreted_classes.zip interpreted_values
  let cm := labels.map (fun a => labels.map (fun b => countCell pairs a b))
  (⟨ravel4 cm.flatten, cm, labels⟩, false)

/-- `ROCCurve.calculate`: when the pathogenicity class map has more than
two entries, warn and return the empty dictionary; otherwise delegate to
`sklearn.metrics.roc_curve` (an external collaborator, passed in as
`roc_curve`).  The second component records whether `warnings.warn` was
called. -/
def ROCCurve.calculate (roc_curve : List ℤ → List ℚ → List ℚ × List ℚ × List ℚ)
    (scoreData : List ℚ) (interpreted_classes : List ℤ)
    (classMap : List (String × ℤ)) :
    Option (List ℚ × List ℚ × List ℚ) × Bool :=
  if classMap.length > 2 then
    (none, true)
  else
    (some (roc_curve interpreted_classes scoreData), false)

/-- `PrecisionRecallCurve.calculate`: same guard as `ROCCurve.calculate`
with `sklearn.metrics.precision_recall_curve` as the external
collaborator. -/
def PrecisionRecallCurve.calculate
    (precision_recall_curve : List ℤ → List ℚ → List ℚ × List ℚ × List ℚ)
    (scoreData : List ℚ) (interpreted_classes : List ℤ)
    (classMap : List (String × ℤ)) :
    Option (List ℚ × List ℚ × List ℚ) × Bool :=
  if classMap.length > 2 then
    (none, true)
  else
    (some (precision_recall_curve interpreted_classes scoreData), false)

/-- `Sensitivity.calculate`: `tp / (tp + fn)` of the dictionary returned
by `ConfusionMatrix.calculate`; `none` models the `KeyError` when the
named cells are absent. -/
def Sensitivity.calculate (scoreData : List ℚ) (cutoff : ℚ)
    (interpreted_classes : List ℤ) (classMap : List (String × ℤ)) :
    Option ℚ :=
  match (ConfusionMatrix.calculate scoreData cutoff interpreted_classes
      classMap).1.named with
  | some c => some ((c.tp : ℚ) / ((c.tp : ℚ) + (c.fn : ℚ)))
  | none => none

/-- `Specificity.calculate`: `tn / (tn + fp)` of the dictionary returned
by `ConfusionMatrix.calculate`. -/
def Specificity.calculate (scoreData : List ℚ) (cutoff : ℚ)
    (interpreted_classes : List ℤ) (classMap : List (String × ℤ)) :
    Option ℚ :=
  match (ConfusionMatrix.calculate scoreData cutoff interpreted_classes
      classMap).1.named with
  | some c => some ((c.tn : ℚ) / ((c.tn : ℚ) + (c.fp : ℚ)))
  | none => none

/-! ## Plugin builder (`vpmbench/plugin.py`, `PluginBuilder`) -/

/-- The `input` / `output` sub-dictionaries of a Docker entry point. -/
structure IOSpecManifest where
  format : Option String
  filePath : Option String
deriving DecidableEq, Repr

/-- The `entry-point` sub-dictionary of a manifest. -/
structure EntryPointManifest where
  mode : Option String
  file : Option String
  image : Option String
  input : Option IOSpecManifest
  output : Option IOSpecManifest
  runCommand : Option String
  bindings : List (String × String)
deriving DecidableEq, Repr

/-- A parsed manifest dictionary (`kwargs` of
`PluginBuilder.build_plugin`), with `Option` marking keys that may be
absent.  `supported-variations` is embedded as the token list (a YAML
list, or the result of splitting a CSV string on commas). -/
structure Manifest where
  name : Option String
  supported_variations : Option (List String)
  reference_genome : Option String
  entry_point : Option EntryPointManifest
  path : String
  version : Option String
  databases : List String
  cutoff : Option ℚ
  supported_chromosomes : Option (List String)
  unsupported_chromosomes : Option (List String)
deriving Repr

/-- The `RuntimeError`s raised while building a plugin, carrying the
data interpolated into the corresponding messages. -/
inductive ManifestError where
  | missingKey (key : String) (path : String)
  | missingModeKey (path : String)
  | missingDockerKey (key : String) (path : String)
  | missingDockerIOKey (inputOutput : String) (key : String) (path : String)
  | missingPythonKey (key : String) (path : String)
  | unknownMode (mode : String) (path : String)
  | resolveError (msg : String)
  | missingFile (file : String)
deriving DecidableEq, Repr

/-- Python's `str.lower()`, embedded as a character-wise map (the
library `String.toLower` is extensionally the same function but is not
kernel-reducible). -/
def strLower (s : String) : String :=
  ⟨s.data.map Char.toLower⟩

/-- Python's `str.strip()`: drop leading and trailing whitespace. -/
def strStrip (s : String) : String :=
  ⟨((s.data.dropWhile (·.isWhitespace)).reverse.dropWhile
    (·.isWhitespace)).reverse⟩

/-- `hasPrefixChars p s`: the char list `p` is an initial segment of
`s`. -/
def hasPrefixChars : List Char → List Char → Bool
  | [], _ => true
  | _ :: _, [] => false
  | p :: ps, c :: cs => p == c && hasPrefixChars ps cs

/-- `hasInfixChars p s`: the char list `p` occurs contiguously in
`s`. -/
def hasInfixChars : List Char → List Char → Bool
  | pat, [] => pat.isEmpty
  | pat, c :: cs => hasPrefixChars pat (c :: cs) || hasInfixChars pat cs

/-- `VariationType.resolve`: `VariationType(name.lower())`, failing for
unknown tokens. -/
def VariationType.resolve (name : String) : Except String VariationType :=
  match strLower name with
  | "snp" => .ok .snp
  | "indel" => .ok .indel
  | "conding" => .ok .coding
  | "non-coding" => .ok .nonCoding
  | _ => .error ("Can't resolve variation type for name " ++ name)

/-- Python's `pat in s` substring test. -/
def containsSubstr (s pat : String) : Bool :=
  hasInfixChars pat.data s.data

/-- `ReferenceGenome.resolve`: the GRCh aliases resolve by substring
containment, otherwise `ReferenceGenome(name)` must match a value. -/
def ReferenceGenome.resolve (name : String) : Except String ReferenceGenome :=
  let n := strLower name
  if containsSubstr n "grch38" then .ok .hg38
  else if containsSubstr n "grch37" then .ok .hg19
  else
    match n with
    | "hg38" => .ok .hg38
    | "hg19" => .ok .hg19
    | "hg18" => .ok .hg18
    | "hg17" => .ok .hg17
    | "hg16" => .ok .hg16
    | _ => .error ("Can't resolve reference genome for name " ++ name)

/-- `PluginBuilder.validate_mandatory_keys`: the first absent key of
`name`, `supported-variations`, `reference-genome`, `entry-point` (in
this order) raises a `RuntimeError` naming the key and the manifest
path. -/
def PluginBuilder.validate_mandatory_keys (m : Manifest) :
    Except ManifestError Unit :=
  if m.name.isNone then .error (.missingKey "name" m.path)
  else if m.supported_variations.isNone then
    .error (.missingKey "supported-variations" m.path)
  else if m.reference_genome.isNone then
    .error (.missingKey "reference-genome" m.path)
  else if m.entry_point.isNone then .error (.missingKey "entry-point" m.path)
  else .ok ()

/-- `PluginBuilder.validate_entry_point`: `mode` must be present; a
Docker mode requires `image`, `input`, `output`, `run` plus `format` and
`file-path` for both `input` and `output`; a Python mode requires
`file`; any other mode raises at once.  All comparisons lower-case the
mode string. -/
def PluginBuilder.validate_entry_point (m : Manifest) :
    Except ManifestError Unit :=
  match m.entry_point with
  | none => .error (.missingKey "entry-point" m.path)
  | some ep =>
    match ep.mode with
    | none => .error (.missingModeKey m.path)
    | some mode =>
      if strLower mode == "docker" then
        if ep.image.isNone then .error (.missingDockerKey "image" m.path)
        else if ep.input.isNone then .error (.missingDockerKey "input" m.path)
        else if ep.output.isNone then .error (.missingDockerKey "output" m.path)
        else if ep.runCommand.isNone then .error (.missingDockerKey "run" m.path)
        else if (ep.input.getD ⟨none, none⟩).format.isNone then
          .error (.missingDockerIOKey "input" "format" m.path)
        else if (ep.input.getD ⟨none, none⟩).filePath.isNone then
          .error (.missingDockerIOKey "input" "file-path" m.path)
        else if (ep.output.getD ⟨none, none⟩).format.isNone then
          .error (.missingDockerIOKey "output" "format" m.path)
        else if (ep.output.getD ⟨none, none⟩).filePath.isNone then
          .error (.missingDockerIOKey "output" "file-path" m.path)
        else .ok ()
      else if strLower mode == "python" then
        if ep.file.isNone then .error (.missingPythonKey "file" m.path)
        else .ok ()
      else .error (.unknownMode mode m.path)

/-- `PluginBuilder.build_entry_point` together with
`build_docker_entry_point` / `build_python_entry_point`.  The
filesystem is external: `fs manifestPath relPath` states that the file
reached by resolving `relPath` against the manifest's directory
exists. -/
def PluginBuilder.build_entry_point (fs : String → String → Bool)
    (m : Manifest) : Except ManifestError EntryPoint :=
  match m.entry_point with
  | none => .error (.missingKey "entry-point" m.path)
  | some ep =>
    if strLower (ep.mode.getD "") == "docker" then
      let input := ep.input.getD ⟨none, none⟩
      let output := ep.output.getD ⟨none, none⟩
      match ep.bindings.find? (fun b => !fs m.path b.1) with
      | some b => .error (.missingFile b.1)
      | none =>
        .ok (.docker (ep.image.getD "") (ep.runCommand.getD "")
          (input.format.getD "") (input.filePath.getD "")
          (output.format.getD "") (output.filePath.getD "") ep.bindings)
    else
      let file := ep.file.getD ""
      if !fs m.path file then .error (.missingFile file)
      else .ok (.python file)

/-- The default chromosome set of `PluginBuilder.build_plugin`:
`[str(x) for x in range(1, 23)] + ["X", "Y", "MT"]`. -/
def defaultChromosomes : List String :=
  (List.range' 1 22).map toString ++ ["X", "Y", "MT"]

/-- Resolve the supported-variation tokens
(`[VariationType.resolve(v.strip()) for v in supported_variations]`). -/
def resolveVariations (tokens : List String) :
    Except String (List VariationType) :=
  tokens.mapM (fun v => VariationType.resolve (strStrip v))

/-- `PluginBuilder.build_plugin`: validate the mandatory keys and the
entry point, resolve the variation-type and reference-genome tokens,
build the entry point, then fill the optional keys with their defaults:
`cutoff = kwargs.get("cutoff", 0.5)` and
`supported_chromosomes = set(default or given) - set(exclusions)`.
The `getD` defaults on the mandatory fields are unreachable: validation
already rejected manifests missing those keys. -/
def PluginBuilder.build_plugin (fs : String → String → Bool) (m : Manifest) :
    Except ManifestError Plugin :=
  match PluginBuilder.validate_mandatory_keys m with
  | .error e => .error e
  | .ok () =>
  match PluginBuilder.validate_entry_point m with
  | .error e => .error e
  | .ok () =>
  match resolveVariations (m.supported_variations.getD []) with
  | .error e => .error (.resolveError e)
  | .ok supported_variations =>
  match ReferenceGenome.resolve (strLower (strStrip (m.reference_genome.getD ""))) with
  | .error e => .error (.resolveError e)
  | .ok reference_genome =>
  match PluginBuilder.build_entry_point fs m with
  | .error e => .error e
  | .ok entry_point =>
    let cutoff := m.cutoff.getD (1/2)
    let unsupported := m.unsupported_chromosomes.getD []
    let supported_chromosomes :=
      (m.supported_chromosomes.getD defaultChromosomes).filter
        (fun c => !unsupported.contains c)
    .ok ⟨m.name.getD "", m.version, supported_variations,
      supported_chromosomes, reference_genome, m.databases, entry_point,
      cutoff, m.path⟩

/-! ## Loading plugins (`vpmbench/api.py`, `load_plugins`) -/

/-- The warning text of `load_plugins`' `except` branch. -/
def loadWarning (manifestPath err : String) : String :=
  "Can't load plugin from " ++ manifestPath ++ ": " ++ err ++ " "

/-- The trailing filter of `load_plugins`.  The guard `if filter:` tests
the Python builtin `filter`, which is always truthy, so the filtered
branch is always taken; with `plugin_selection = None`,
`filter(None, found_plugins)` keeps the truthy elements, i.e. every
plugin. -/
def applySelection (sel : Option (Plugin → Bool)) (found : List Plugin) :
    List Plugin :=
  match sel with
  | some f => found.filter f
  | none => found

/-- `load_plugins`: load every manifest found in the plugin directory;
a manifest whose load raises is turned into a warning and skipped, the
rest continue to load; finally the selection is applied.  Reading and
parsing one manifest file is the external effect `load_plugin`; the
returned pair is (plugins, warnings). -/
def load_plugins (load_plugin : String → Except String Plugin)
    (manifests : List String) (plugin_selection : Option (Plugin → Bool)) :
    List Plugin × List String :=
  let found := manifests.foldl
    (fun acc mp =>
      match load_plugin mp with
      | .ok p => (acc.1 ++ [p], acc.2)
      | .error e => (acc.1, acc.2 ++ [loadWarning mp e]))
    ([], [])
  (applySelection plugin_selection found.1, found.2)

/-! ## Theorems -/

/-- C3: For every score series and scalar cutoff c, `interpret` maps
each value to class 1 when the value is strictly greater than c and to
class 0 otherwise; a value exactly equal to c interprets as class 0;
consequently `interpret` is monotone: a non-decreasing series yields a
non-decreasing interpreted class series.  (Determinism and freedom from
side effects hold by construction: `Score.interpret` is a pure
function.) -/
theorem C3_interpret_cutoff_and_monotone (data : List ℚ) (c : ℚ)
    (hmono : data.Pairwise (· ≤ ·)) :
    (Score.interpret data c).Pairwise (· ≤ ·) ∧
    ∀ i : Fin data.length,
      ((Score.interpret data c).get
          (Fin.cast (Score.interpret_length data c).symm i) =
        if data.get i > c then 1 else 0) ∧
      (data.get i = c →
        (Score.interpret data c).get
          (Fin.cast (Score.interpret_length data c).symm i) = 0) := by
  constructor
  · unfold Score.interpret
    rw [List.pairwise_map]
    refine hmono.imp ?_
    intro a b hab
    by_cases ha : a > c
    · have hb : b > c := lt_of_lt_of_le ha hab
      simp [ha, hb]
    · simp only [if_neg ha]
      split <;> norm_num
  · intro i
    have hget : (Score.interpret data c).get
        (Fin.cast (Score.interpret_length data c).symm i) =
        if data.get i > c then 1 else 0 := by
      simp [Score.interpret, List.get_eq_getElem, List.getElem_map]
    refine ⟨hget, fun heq => ?_⟩
    rw [hget, heq, if_neg (lt_irrefl c)]

/-- Witness for C3 at the concrete non-decreasing series `[0, 1, 2]`
with cutoff `1`: the interpretation is non-decreasing, and the entry
equal to the cutoff maps to class 0. -/
theorem C3_witness :
    ([0, 1, 2] : List ℚ).Pairwise (· ≤ ·) ∧
    ((Score.interpret [0, 1, 2] 1).Pairwise (· ≤ ·) ∧
     ∀ i : Fin ([0, 1, 2] : List ℚ).length,
       ((Score.interpret [0, 1, 2] 1).get
           (Fin.cast (Score.interpret_length [0, 1, 2] 1).symm i) =
         if ([0, 1, 2] : List ℚ).get i > 1 then 1 else 0) ∧
       (([0, 1, 2] : List ℚ).get i = 1 →
         (Score.interpret [0, 1, 2] 1).get
           (Fin.cast (Score.interpret_length [0, 1, 2] 1).symm i) = 0)) :=
  have h : ([0, 1, 2] : List ℚ).Pairwise (· ≤ ·) := by norm_num
  ⟨h, C3_interpret_cutoff_and_monotone [0, 1, 2] 1 h⟩

/-- C2, counterexample: a plugin declaring reference genome hg19 on a
table whose only row carries hg38 fails the compatibility check, but
the raised `RuntimeError` ("Reference genome of method not compatible
data!") interpolates no offending genome values: it does not enumerate
the mismatching value hg38.  This refutes the claim that every failure
message enumerates exactly the unsupported values found. -/
theorem C2_counterexample :
    Plugin.is_compatible_with_data
      ⟨"GenomePlugin", none, [.snp], ["1"], .hg19, [], .python "e.py",
        1/2, "plugins/genome/manifest.yaml"⟩
      [⟨0, "1", 5, "A", "C", .hg38, .snp⟩] =
      .error (.rgError "GenomePlugin") ∧
    CompatibilityError.reportedValues (.rgError "GenomePlugin") = [] :=
  ⟨rfl, rfl⟩

/-- C2, amended: the compatibility check raises if and only if some
row's reference genome differs from the plugin's declared genome, or
the variation types present are not all supported, or the chromosomes
present are not all supported; it never filters rows (it is a pure
check).  The variation-type and chromosome failures enumerate exactly
the unsupported values found; the reference-genome failure names the
plugin but enumerates no values. -/
theorem mem_dedup_filter_not_contains {α : Type} [DecidableEq α]
    (l sup : List α) (x : α) :
    x ∈ l.dedup.filter (fun t => !sup.contains t) ↔ x ∈ l ∧ x ∉ sup := by
  simp [List.mem_filter, List.mem_dedup, List.elem_iff]

theorem dedup_filter_not_contains_eq_nil {α : Type} [DecidableEq α]
    (l sup : List α) :
    l.dedup.filter (fun t => !sup.contains t) = [] ↔ ∀ x ∈ l, x ∈ sup := by
  constructor
  · intro h x hx
    by_contra hxs
    have hmem : x ∈ l.dedup.filter (fun t => !sup.contains t) :=
      (mem_dedup_filter_not_contains l sup x).mpr ⟨hx, hxs⟩
    rw [h] at hmem
    simp at hmem
  · intro h
    simp only [List.filter_eq_nil_iff, List.mem_dedup]
    intro a ha
    simp [List.elem_iff, h a ha]

theorem C2_compatibility_check (p : Plugin) (rows : List VariantRow) :
    (p.is_compatible_with_data rows = .ok () ↔
      ((∀ r ∈ rows, r.RG = p.reference_genome) ∧
       (∀ r ∈ rows, r.TYPE ∈ p.supported_variations) ∧
       (∀ r ∈ rows, r.CHROM ∈ p.supported_chromosomes))) ∧
    (∀ name ts, p.is_compatible_with_data rows = .error (.typeError name ts) →
      name = p.name ∧
      ∀ t, t ∈ ts ↔ ((∃ r ∈ rows, r.TYPE = t) ∧ t ∉ p.supported_variations)) ∧
    (∀ name cs, p.is_compatible_with_data rows = .error (.chromError name cs) →
      name = p.name ∧
      ∀ c, c ∈ cs ↔ ((∃ r ∈ rows, r.CHROM = c) ∧
        c ∉ p.supported_chromosomes)) ∧
    (∀ name, p.is_compatible_with_data rows = .error (.rgError name) →
      name = p.name ∧ (CompatibilityError.rgError name).reportedValues = []) := by
  by_cases hA : rows.all (fun r => r.RG == p.reference_genome) = true
  case neg =>
    rw [Bool.not_eq_true] at hA
    have hres : p.is_compatible_with_data rows = .error (.rgError p.name) := by
      unfold Plugin.is_compatible_with_data
      rw [hA]
      rfl
    refine ⟨?_, ?_, ?_, ?_⟩
    · rw [hres]
      constructor
      · intro h; simp at h
      · rintro ⟨hrg, -, -⟩
        have : rows.all (fun r => r.RG == p.reference_genome) = true := by
          simp only [List.all_eq_true, beq_iff_eq]; exact hrg
        rw [hA] at this; simp at this
    · intro name ts h; rw [hres] at h; simp at h
    · intro name cs h; rw [hres] at h; simp at h
    · intro name h
      rw [hres] at h
      refine ⟨?_, rfl⟩
      injection h with h'
      injection h' with h1
      exact h1.symm
  case pos =>
    have hrg : ∀ r ∈ rows, r.RG = p.reference_genome := by
      simpa [List.all_eq_true, beq_iff_eq] using hA
    by_cases hT : (((rows.map (·.TYPE)).dedup).filter
        (fun t => !p.supported_variations.contains t)).isEmpty = true
    case neg =>
      rw [Bool.not_eq_true] at hT
      have hres : p.is_compatible_with_data rows =
          .error (.typeError p.name (((rows.map (·.TYPE)).dedup).filter
            (fun t => !p.supported_variations.contains t))) := by
        unfold Plugin.is_compatible_with_data
        rw [hA, hT]
        rfl
      refine ⟨?_, ?_, ?_, ?_⟩
      · rw [hres]
        constructor
        · intro h; simp at h
        · rintro ⟨-, htype, -⟩
          have hnil : ((rows.map (·.TYPE)).dedup).filter
              (fun t => !p.supported_variations.contains t) = [] := by
            rw [dedup_filter_not_contains_eq_nil]
            simp only [List.mem_map]
            rintro t ⟨r, hr, rfl⟩
            exact htype r hr
          rw [hnil] at hT; simp at hT
      · intro name ts h
        rw [hres] at h
        injection h with h'
        injection h' with h1 h2
        refine ⟨h1.symm, ?_⟩
        intro t
        rw [← h2, mem_dedup_filter_not_contains, List.mem_map]
      · intro name cs h; rw [hres] at h; simp at h
      · intro name h; rw [hres] at h; simp at h
    case pos =>
      have htypes : ∀ r ∈ rows, r.TYPE ∈ p.supported_variations := by
        have hT' := hT
        rw [List.isEmpty_iff, dedup_filter_not_contains_eq_nil] at hT'
        intro r hr
        exact hT' r.TYPE (List.mem_map_of_mem _ hr)
      by_cases hC : (((rows.map (·.CHROM)).dedup).filter
          (fun c => !p.supported_chromosomes.contains c)).isEmpty = true
      case neg =>
        rw [Bool.not_eq_true] at hC
        have hres : p.is_compatible_with_data rows =
            .error (.chromError p.name (((rows.map (·.CHROM)).dedup).filter
              (fun c => !p.supported_chromosomes.contains c))) := by
          unfold Plugin.is_compatible_with_data
          rw [hA, hT, hC]
          rfl
        refine ⟨?_, ?_, ?_, ?_⟩
        · rw [hres]
          constructor
          · intro h; simp at h
          · rintro ⟨-, -, hchrom⟩
            have hnil : ((rows.map (·.CHROM)).dedup).filter
                (fun c => !p.supported_chromosomes.contains c) = [] := by
              rw [dedup_filter_not_contains_eq_nil]
              simp only [List.mem_map]
              rintro c ⟨r, hr, rfl⟩
              exact hchrom r hr
            rw [hnil] at hC; simp at hC
        · intro name ts h; rw [hres] at h; simp at h
        · intro name cs h
          rw [hres] at h
          injection h with h'
          injection h' with h1 h2
          refine ⟨h1.symm, ?_⟩
          intro c
          rw [← h2, mem_dedup_filter_not_contains, List.mem_map]
        · intro name h; rw [hres] at h; simp at h
      case pos =>
        have hchroms : ∀ r ∈ rows, r.CHROM ∈ p.supported_chromosomes := by
          have hC' := hC
          rw [List.isEmpty_iff, dedup_filter_not_contains_eq_nil] at hC'
          intro r hr
          exact hC' r.CHROM (List.mem_map_of_mem _ hr)
        have hres : p.is_compatible_with_data rows = .ok () := by
          unfold Plugin.is_compatible_with_data
          rw [hA, hT, hC]
          rfl
        refine ⟨?_, ?_, ?_, ?_⟩
        · rw [hres]
          simp only [true_iff]
          exact ⟨hrg, htypes, hchroms⟩
        · intro name ts h; rw [hres] at h; simp at h
        · intro name cs h; rw [hres] at h; simp at h
        · intro name h; rw [hres] at h; simp at h

/-- Witness for C2 at a concrete compatible plugin/table pair: the check
passes. -/
theorem C2_witness :
    Plugin.is_compatible_with_data
      ⟨"OkPlugin", none, [.snp], ["1"], .hg19, [], .python "e.py",
        1/2, "plugins/ok/manifest.yaml"⟩
      [⟨0, "1", 5, "A", "C", .hg19, .snp⟩] = .ok () :=
  (C2_compatibility_check _ _).1.mpr (by decide)

/-- The aligned conjunction of two boolean Series is all-true iff the
Series have the same length and each is all-true. -/
theorem alignAnd_all_iff (xs ys : List Bool) :
    (alignAnd xs ys).all (fun b => b) = true ↔
      (xs.length = ys.length ∧ xs.all (fun b => b) = true ∧
       ys.all (fun b => b) = true) := by
  induction xs generalizing ys with
  | nil =>
    cases ys with
    | nil => simp [alignAnd]
    | cons b bs =>
      rw [show alignAnd [] (b :: bs) = false :: alignAnd [] bs from rfl]
      simp
  | cons a as2 ih =>
    cases ys with
    | nil =>
      rw [show alignAnd (a :: as2) [] = false :: alignAnd as2 [] from rfl]
      simp
    | cons b bs =>
      rw [show alignAnd (a :: as2) (b :: bs) =
        (a && b) :: alignAnd as2 bs from rfl]
      simp only [List.all_cons, Bool.and_eq_true, List.length_cons]
      rw [ih bs]
      constructor
      · rintro ⟨⟨ha, hb⟩, hlen, has, hbs⟩
        exact ⟨by omega, ⟨ha, has⟩, hb, hbs⟩
      · rintro ⟨hlen, ⟨ha, has⟩, hb, hbs⟩
        exact ⟨⟨ha, hb⟩, by omega, has, hbs⟩

theorem all_map_id {α : Type} (l : List α) (f : α → Bool) :
    ((l.map f).all fun b => b) = l.all f := by
  induction l with
  | nil => rfl
  | cons x xs ih => rw [List.map_cons, List.all_cons, List.all_cons, ih]

theorem validate_score_table_iff (t : List VariantRow) (st : List ScoreRow) :
    validate_score_table (t.map (·.UID)) st = true ↔
      (t.length = st.length ∧
       (∀ r ∈ t, ∃ s ∈ st, s.UID = r.UID) ∧
       (∀ s ∈ st, ∃ r ∈ t, r.UID = s.UID) ∧
       (∀ s ∈ st, s.SCORE.isNum = true)) := by
  unfold validate_score_table
  rw [Bool.and_eq_true, alignAnd_all_iff, all_map_id, all_map_id]
  simp only [List.length_map, List.all_eq_true, List.any_eq_true,
    beq_iff_eq, List.mem_map, List.elem_iff]
  constructor
  · rintro ⟨⟨hlen, h1, h2⟩, h3⟩
    refine ⟨hlen, ?_, ?_, h3⟩
    · intro r hr
      obtain ⟨s, hs, hseq⟩ := h1 r.UID ⟨r, hr, rfl⟩
      exact ⟨s, hs, hseq⟩
    · intro s hs
      obtain ⟨r, hr, hreq⟩ := h2 s hs
      exact ⟨r, hr, hreq⟩
  · rintro ⟨hlen, h1, h2, h3⟩
    refine ⟨⟨hlen, ?_, ?_⟩, h3⟩
    · rintro u ⟨r, hr, rfl⟩
      exact h1 r hr
    · intro s hs
      exact h2 s hs

/-- C4, amended: given the compatibility check and the entry point
succeeded, `Plugin.run` accepts the result (renaming the score column)
iff the score table has exactly as many rows as the variant table (the
pandera check's index alignment forces this), every input UID appears in
the score table, every score-table UID is among the input UIDs (no
plugin introduces new variants), and every score is numeric; any
violation rejects the result with the schema error, which itself
carries no plugin attribution. -/
theorem C4_output_validation (p : Plugin)
    (entry : List VariantRow → Except String (List ScoreRow))
    (t : List VariantRow) (st : List ScoreRow)
    (hc : p.is_compatible_with_data t = .ok ())
    (he : entry t = .ok st) :
    (p.run entry t = .ok ⟨p.score_column_name, st⟩ ↔
      (t.length = st.length ∧
       (∀ r ∈ t, ∃ s ∈ st, s.UID = r.UID) ∧
       (∀ s ∈ st, ∃ r ∈ t, r.UID = s.UID) ∧
       (∀ s ∈ st, s.SCORE.isNum = true))) ∧
    (p.run entry t = .error .schema ↔
      ¬(t.length = st.length ∧
        (∀ r ∈ t, ∃ s ∈ st, s.UID = r.UID) ∧
        (∀ s ∈ st, ∃ r ∈ t, r.UID = s.UID) ∧
        (∀ s ∈ st, s.SCORE.isNum = true))) := by
  have hrun : p.run entry t =
      if validate_score_table (t.map (·.UID)) st then
        .ok ⟨p.score_column_name, st⟩
      else .error .schema := by
    unfold Plugin.run
    rw [hc, he]
  by_cases hv : validate_score_table (t.map (·.UID)) st = true
  · rw [hrun, if_pos hv]
    constructor
    · exact iff_of_true rfl ((validate_score_table_iff t st).mp hv)
    · constructor
      · intro h; simp at h
      · intro h; exact absurd ((validate_score_table_iff t st).mp hv) h
  · rw [hrun, if_neg hv]
    constructor
    · constructor
      · intro h; simp at h
      · intro h; exact absurd ((validate_score_table_iff t st).mpr h) hv
    · exact iff_of_true rfl (fun h => hv ((validate_score_table_iff t st).mpr h))

/-- C4, counterexample: a variant table with the single UID 0 and a
score table with two numeric rows for UID 0 — every condition claimed by
the spec holds (every input UID appears in the score table, the output
UID set is a subset of the input's, all scores numeric) — yet the
pandera check's index alignment rejects the result with the schema
error; moreover the schema error carries no plugin attribution: two
plugins with different names fail with the identical error value. -/
theorem C4_counterexample :
    ((∀ r ∈ ([⟨0, "1", 5, "A", "C", .hg19, .snp⟩] : List VariantRow),
        ∃ s ∈ ([⟨0, .num 1⟩, ⟨0, .num 2⟩] : List ScoreRow), s.UID = r.UID) ∧
     (∀ s ∈ ([⟨0, .num 1⟩, ⟨0, .num 2⟩] : List ScoreRow),
        ∃ r ∈ ([⟨0, "1", 5, "A", "C", .hg19, .snp⟩] : List VariantRow),
          r.UID = s.UID) ∧
     (∀ s ∈ ([⟨0, .num 1⟩, ⟨0, .num 2⟩] : List ScoreRow),
        s.SCORE.isNum = true)) ∧
    Plugin.run
      ⟨"P4a", none, [.snp], ["1"], .hg19, [], .python "e.py", 1/2, "a.yaml"⟩
      (fun _ => .ok [⟨0, .num 1⟩, ⟨0, .num 2⟩])
      [⟨0, "1", 5, "A", "C", .hg19, .snp⟩] = .error .schema ∧
    Plugin.run
      ⟨"P4b", none, [.snp], ["1"], .hg19, [], .python "e.py", 1/2, "b.yaml"⟩
      (fun _ => .ok [⟨0, .num 1⟩, ⟨0, .num 2⟩])
      [⟨0, "1", 5, "A", "C", .hg19, .snp⟩] = .error .schema ∧
    ("P4a" : String) ≠ "P4b" :=
  ⟨by decide, rfl, rfl, by decide⟩

/-- Witness for C4 at a concrete compatible plugin, entry point, table
and score table satisfying all four conditions: the result is
accepted with the renamed score column. -/
theorem C4_witness :
    Plugin.run
      ⟨"P4", none, [.snp], ["1"], .hg19, [], .python "e.py", 1/2, "m.yaml"⟩
      (fun _ => .ok [⟨0, .num 1⟩])
      [⟨0, "1", 5, "A", "C", .hg19, .snp⟩] =
      .ok ⟨"P4_SCORE", [⟨0, .num 1⟩]⟩ :=
  (C4_output_validation
    ⟨"P4", none, [.snp], ["1"], .hg19, [], .python "e.py", 1/2, "m.yaml"⟩
    (fun _ => .ok [⟨0, .num 1⟩])
    [⟨0, "1", 5, "A", "C", .hg19, .snp⟩]
    [⟨0, .num 1⟩] rfl rfl).1.mpr (by decide)

theorem Except_isOk_map {g a b : Type} (f : a → b) (x : Except g a) :
    (x.map f).isOk = x.isOk := by
  cases x <;> rfl

theorem Except_error_bind {g a b : Type} (e : g) (f : a → Except g b) :
    (Except.error e >>= f) = Except.error e := rfl

theorem Except_ok_bind {g a b : Type} (x : a) (f : a → Except g b) :
    (Except.ok x >>= f) = f x := rfl

theorem invoke_method_error_iff (rp : RunnablePlugin) (t : List VariantRow)
    (e : RunError) :
    invoke_method rp t = .error e ↔ rp.plugin.run rp.entry t = .error e := by
  unfold invoke_method
  cases rp.plugin.run rp.entry t <;> simp [Except.map]

theorem invoke_method_isOk (rp : RunnablePlugin) (t : List VariantRow) :
    (invoke_method rp t).isOk = (rp.plugin.run rp.entry t).isOk :=
  Except_isOk_map _ _

theorem invoke_mapM_cons (rp : RunnablePlugin) (rest : List RunnablePlugin)
    (t : List VariantRow) :
    (rp :: rest).mapM (fun rp2 => invoke_method rp2 t) =
      invoke_method rp t >>= fun y =>
        (rest.mapM (fun rp2 => invoke_method rp2 t)) >>= fun ys =>
          pure (y :: ys) := by
  rw [List.mapM_cons]

theorem invoke_mapM_ok_iff (plugins : List RunnablePlugin)
    (t : List VariantRow) :
    (plugins.mapM (fun rp => invoke_method rp t)).isOk = true ↔
      ∀ rp ∈ plugins, (rp.plugin.run rp.entry t).isOk = true := by
  induction plugins with
  | nil =>
    rw [List.mapM_nil]
    constructor
    · intro _ rp hrp
      cases hrp
    · intro _
      rfl
  | cons rp rest ih =>
    rw [invoke_mapM_cons]
    have hio := invoke_method_isOk rp t
    cases hx : invoke_method rp t with
    | error e =>
      rw [hx] at hio
      rw [Except_error_bind]
      constructor
      · intro h
        exact Bool.noConfusion h
      · intro h
        have h1 := h rp (List.mem_cons_self rp rest)
        rw [← hio] at h1
        exact Bool.noConfusion h1
    | ok pr =>
      rw [hx] at hio
      rw [Except_ok_bind]
      cases hrest : rest.mapM (fun rp2 => invoke_method rp2 t) with
      | error e =>
        rw [hrest] at ih
        rw [Except_error_bind]
        constructor
        · intro h
          exact Bool.noConfusion h
        · intro h
          have hro : ∀ rp2 ∈ rest, (rp2.plugin.run rp2.entry t).isOk = true :=
            fun rp2 h2 => h rp2 (List.mem_cons_of_mem _ h2)
          exact Bool.noConfusion (ih.mpr hro)
      | ok res =>
        rw [hrest] at ih
        rw [Except_ok_bind]
        constructor
        · intro _ rp2 h2
          rcases List.mem_cons.mp h2 with h2 | h2
          · subst h2
            exact hio.symm
          · exact ih.mp rfl rp2 h2
        · intro _
          rfl

theorem invoke_mapM_ok_fst (plugins : List RunnablePlugin)
    (t : List VariantRow) (res : List (Plugin × PluginResult))
    (h : plugins.mapM (fun rp => invoke_method rp t) = .ok res) :
    res.map Prod.fst = plugins.map (·.plugin) := by
  induction plugins generalizing res with
  | nil =>
    rw [List.mapM_nil] at h
    rw [show (pure [] : Except RunError (List (Plugin × PluginResult))) =
      .ok [] from rfl] at h
    cases h
    rfl
  | cons rp rest ih =>
    rw [invoke_mapM_cons] at h
    cases hx : invoke_method rp t with
    | error e =>
      rw [hx, Except_error_bind] at h
      cases h
    | ok pr =>
      rw [hx, Except_ok_bind] at h
      cases hrest : rest.mapM (fun rp2 => invoke_method rp2 t) with
      | error e =>
        rw [hrest, Except_error_bind] at h
        cases h
      | ok res2 =>
        rw [hrest, Except_ok_bind] at h
        rw [show (pure (pr :: res2) :
          Except RunError (List (Plugin × PluginResult))) =
          .ok (pr :: res2) from rfl] at h
        cases h
        have hfst : pr.1 = rp.plugin := by
          unfold invoke_method at hx
          cases hr : rp.plugin.run rp.entry t with
          | error e2 =>
            rw [hr] at hx
            exact absurd hx (by simp [Except.map])
          | ok v =>
            rw [hr] at hx
            simp only [Except.map] at hx
            injection hx with hx2
            rw [← hx2]
        simp only [List.map_cons, hfst, ih res2 hrest]

theorem invoke_mapM_error (plugins : List RunnablePlugin)
    (t : List VariantRow) (e : RunError)
    (h : plugins.mapM (fun rp => invoke_method rp t) = .error e) :
    ∃ pre rp post, plugins = pre ++ rp :: post ∧
      rp.plugin.run rp.entry t = .error e ∧
      ∀ rp2 ∈ pre, (rp2.plugin.run rp2.entry t).isOk = true := by
  induction plugins with
  | nil =>
    rw [List.mapM_nil] at h
    rw [show (pure [] : Except RunError (List (Plugin × PluginResult))) =
      .ok [] from rfl] at h
    cases h
  | cons rp rest ih =>
    rw [invoke_mapM_cons] at h
    cases hx : invoke_method rp t with
    | error efst =>
      rw [hx, Except_error_bind] at h
      injection h with h2
      subst h2
      refine ⟨[], rp, rest, rfl, (invoke_method_error_iff rp t efst).mp hx, ?_⟩
      intro rp2 h2
      cases h2
    | ok pr =>
      have hio := invoke_method_isOk rp t
      rw [hx] at hio
      rw [hx, Except_ok_bind] at h
      cases hrest : rest.mapM (fun rp2 => invoke_method rp2 t) with
      | error erest =>
        rw [hrest, Except_error_bind] at h
        injection h with h2
        subst h2
        obtain ⟨pre, rpf, post, heq, herr, hpre⟩ := ih hrest
        refine ⟨rp :: pre, rpf, post, by rw [heq]; rfl, herr, ?_⟩
        intro rp2 h2
        rcases List.mem_cons.mp h2 with h2 | h2
        · subst h2
          exact hio.symm
        · exact hpre rp2 h2
      | ok res2 =>
        rw [hrest, Except_ok_bind] at h
        rw [show (pure (pr :: res2) :
          Except RunError (List (Plugin × PluginResult))) =
          .ok (pr :: res2) from rfl] at h
        cases h

/-- C1, counterexample: two plugins are invoked on a one-row table; the
first raises during execution, the second succeeds.  `invoke_methods`
re-raises the failing plugin's exception via `job.get()` and returns no
merged result at all — the merged result does not contain the
successful plugin's scores (invoking the successful plugin alone
succeeds).  This refutes the claim that the run only fails when zero
plugins produce usable output. -/
theorem C1_counterexample :
    invoke_methods
      [⟨⟨"Failing", none, [.snp], ["1"], .hg19, [], .python "e.py", 1/2,
          "f.yaml"⟩, fun _ => .error "boom"⟩,
       ⟨⟨"Working", none, [.snp], ["1"], .hg19, [], .python "e.py", 1/2,
          "w.yaml"⟩, fun rows => .ok (rows.map (fun r => ⟨r.UID, .num 1⟩))⟩]
      [⟨0, "1", 5, "A", "C", .hg19, .snp⟩] = .error (.exec "boom") ∧
    (invoke_methods
      [⟨⟨"Working", none, [.snp], ["1"], .hg19, [], .python "e.py", 1/2,
          "w.yaml"⟩, fun rows => .ok (rows.map (fun r => ⟨r.UID, .num 1⟩))⟩]
      [⟨0, "1", 5, "A", "C", .hg19, .snp⟩]).isOk = true :=
  ⟨rfl, rfl⟩

/-- C1, amended: `invoke_methods` succeeds iff every invoked plugin's
run succeeds, in which case the merged result carries every plugin's
score column; when any plugin fails, the error of the first failing
plugin (in dispatch order) is re-raised by `job.get()` — every plugin
dispatched before it succeeded — and no merged result is produced.
(Sibling tasks already dispatched to the pool are not cancelled, but
their results are discarded.) -/
theorem C1_invocation_all_or_nothing (plugins : List RunnablePlugin)
    (t : List VariantRow) :
    ((invoke_methods plugins t).isOk = true ↔
      ∀ rp ∈ plugins, (rp.plugin.run rp.entry t).isOk = true) ∧
    (∀ ann, invoke_methods plugins t = .ok ann →
      ann.plugins = plugins.map (·.plugin)) ∧
    (∀ e, invoke_methods plugins t = .error e →
      ∃ pre rp post, plugins = pre ++ rp :: post ∧
        rp.plugin.run rp.entry t = .error e ∧
        ∀ rp2 ∈ pre, (rp2.plugin.run rp2.entry t).isOk = true) := by
  refine ⟨?_, ?_, ?_⟩
  · rw [← invoke_mapM_ok_iff plugins t]
    unfold invoke_methods
    cases hm : plugins.mapM (fun rp => invoke_method rp t) with
    | error e =>
      exact Iff.rfl
    | ok res =>
      rw [Except_ok_bind]
      exact iff_of_true rfl rfl
  · intro ann h
    unfold invoke_methods at h
    cases hm : plugins.mapM (fun rp => invoke_method rp t) with
    | error e =>
      rw [hm, Except_error_bind] at h
      cases h
    | ok res =>
      rw [hm, Except_ok_bind] at h
      rw [show (pure (AnnotatedVariantData.from_results t res) :
        Except RunError AnnotatedVariantData) =
        .ok (AnnotatedVariantData.from_results t res) from rfl] at h
      injection h with h2
      rw [← h2]
      exact invoke_mapM_ok_fst plugins t res hm
  · intro e h
    unfold invoke_methods at h
    cases hm : plugins.mapM (fun rp => invoke_method rp t) with
    | error efst =>
      rw [hm, Except_error_bind] at h
      injection h with h2
      subst h2
      exact invoke_mapM_error plugins t efst hm
    | ok res =>
      rw [hm, Except_ok_bind] at h
      rw [show (pure (AnnotatedVariantData.from_results t res) :
        Except RunError AnnotatedVariantData) =
        .ok (AnnotatedVariantData.from_results t res) from rfl] at h
      cases h

/-- Witness for C1 at a concrete all-successful input: invoking one
successful plugin yields a merged result. -/
theorem C1_witness :
    (invoke_methods
      [⟨⟨"W2", none, [.snp], ["1"], .hg19, [], .python "e.py", 1/2,
          "w2.yaml"⟩, fun rows => .ok (rows.map (fun r => ⟨r.UID, .num 0⟩))⟩]
      [⟨0, "1", 5, "A", "C", .hg19, .snp⟩]).isOk = true :=
  (C1_invocation_all_or_nothing _ _).1.mpr (by
    intro rp hrp
    rw [List.mem_singleton] at hrp
    subst hrp
    rfl)

/-- With no duplicate UIDs, the rows matching a UID are one row when the
UID occurs and none otherwise. -/
theorem count_uid_filter (rows : List ScoreRow) (u : Nat)
    (hnd : (rows.map (·.UID)).Nodup) :
    (rows.filter (fun s => s.UID == u)).length =
      if rows.any (fun s => s.UID == u) then 1 else 0 := by
  induction rows with
  | nil => rfl
  | cons s rows ih =>
    rw [List.map_cons, List.nodup_cons] at hnd
    obtain ⟨hne, hnd2⟩ := hnd
    by_cases hs : s.UID = u
    · have hnone : rows.any (fun s2 => s2.UID == u) = false := by
        rw [List.any_eq_false]
        intro s2 hs2
        simp only [beq_iff_eq]
        intro heq
        apply hne
        rw [hs, ← heq]
        exact List.mem_map_of_mem (·.UID) hs2
      have hfil : rows.filter (fun s2 => s2.UID == u) = [] := by
        rw [List.filter_eq_nil_iff]
        intro s2 hs2
        have := List.any_eq_false.mp hnone s2 hs2
        simpa using this
      rw [List.filter_cons, List.any_cons]
      simp [hs, hfil]
    · have hbeq : (s.UID == u) = false := by simpa using hs
      rw [List.filter_cons, List.any_cons, hbeq]
      simpa using ih hnd2

/-- Filtering the result of one inner-merge step by a predicate on the
base UID: a base row survives the step iff some score row matches its
UID (uniquely, given no duplicate UIDs). -/
theorem mergeStep_filter_length (rows : List ScoreRow)
    (hnd : (rows.map (·.UID)).Nodup) (init : List AnnotatedRow)
    (q : Nat → Bool) :
    ((mergeStep init rows).filter (fun ar => q ar.base.UID)).length =
      (init.filter (fun ar =>
        (rows.any (fun s => s.UID == ar.base.UID)) && q ar.base.UID)).length := by
  induction init with
  | nil => rfl
  | cons ar init ih =>
    have hstep : mergeStep (ar :: init) rows =
        ((rows.filter (fun s => s.UID == ar.base.UID)).map
          (fun s => { ar with cells := ar.cells ++ [s.SCORE] })) ++
        mergeStep init rows := by
      unfold mergeStep
      rw [List.flatMap_cons]
    rw [hstep, List.filter_append, List.length_append, ih]
    rw [List.filter_cons]
    by_cases hq : q ar.base.UID
    · have hfil : ((rows.filter (fun s => s.UID == ar.base.UID)).map
          (fun s => { ar with cells := ar.cells ++ [s.SCORE] })).filter
            (fun ar2 => q ar2.base.UID) =
          (rows.filter (fun s => s.UID == ar.base.UID)).map
            (fun s => { ar with cells := ar.cells ++ [s.SCORE] }) := by
        rw [List.filter_eq_self]
        intro ar2 har2
        rw [List.mem_map] at har2
        obtain ⟨s, _, rfl⟩ := har2
        simpa using hq
      rw [hfil, List.length_map, count_uid_filter rows ar.base.UID hnd]
      by_cases hany : rows.any (fun s => s.UID == ar.base.UID)
      · simp only [hany, hq, Bool.true_and, if_true, List.length_cons]
        omega
      · rw [Bool.not_eq_true] at hany
        simp [hany, hq]
    · rw [Bool.not_eq_true] at hq
      have hfil : ((rows.filter (fun s => s.UID == ar.base.UID)).map
          (fun s => { ar with cells := ar.cells ++ [s.SCORE] })).filter
            (fun ar2 => q ar2.base.UID) = [] := by
        rw [List.filter_eq_nil_iff]
        intro ar2 har2
        rw [List.mem_map] at har2
        obtain ⟨s, _, rfl⟩ := har2
        simp [hq]
      rw [hfil]
      simp [hq]

/-- Folding the inner-merge step over all plugin results keeps exactly
the accumulator rows whose base UID occurs in every plugin's output. -/
theorem foldl_mergeStep_length (results : List (Plugin × PluginResult))
    (init : List AnnotatedRow)
    (h : ∀ pr ∈ results, (pr.2.rows.map (·.UID)).Nodup) :
    (results.foldl (fun acc pr => mergeStep acc pr.2.rows) init).length =
      (init.filter (fun ar => results.all
        (fun pr => pr.2.rows.any (fun s => s.UID == ar.base.UID)))).length := by
  induction results generalizing init with
  | nil => simp
  | cons pr rs ih =>
    rw [List.foldl_cons]
    rw [ih (mergeStep init pr.2.rows)
      (fun pr2 h2 => h pr2 (List.mem_cons_of_mem _ h2))]
    have hms := mergeStep_filter_length pr.2.rows
      (h pr (List.mem_cons_self _ _)) init
      (fun u => rs.all (fun pr2 => pr2.2.rows.any (fun s => s.UID == u)))
    rw [show (List.filter
        (fun ar => rs.all fun pr2 => pr2.2.rows.any fun s => s.UID == ar.base.UID)
        (mergeStep init pr.2.rows)).length = _ from hms]
    apply congrArg List.length
    apply List.filter_congr
    intro ar _
    rw [List.all_cons]

/-- C5, counterexample: `AnnotatedVariantData.from_results` has no merge
policy parameter at all, and the merge it performs is pandas' default
(`how="inner"`): a two-row base table merged with one plugin result that
scores only the first UID yields one row, not two — the input row count
is not preserved and the caller cannot select an outer policy. -/
theorem C5_counterexample :
    (AnnotatedVariantData.from_results
      [⟨0, "1", 5, "A", "C", .hg19, .snp⟩, ⟨1, "1", 6, "A", "C", .hg19, .snp⟩]
      [(⟨"P5", none, [.snp], ["1"], .hg19, [], .python "e.py", 1/2,
          "p5.yaml"⟩, ⟨"P5_SCORE", [⟨0, .num 1⟩]⟩)]
      ).annotated_variant_data.length = 1 ∧
    ([(⟨0, "1", 5, "A", "C", .hg19, .snp⟩ : VariantRow),
      ⟨1, "1", 6, "A", "C", .hg19, .snp⟩].length = 2) :=
  ⟨rfl, rfl⟩

/-- C5, amended: `from_results` always merges with pandas' default inner
join on UID; when each plugin's output carries no duplicate UIDs, the
merged row count equals the number of base rows whose UID is present in
every plugin's output.  No outer policy exists and no policy is
selectable. -/
theorem C5_merge_always_inner (base : List VariantRow)
    (results : List (Plugin × PluginResult))
    (h : ∀ pr ∈ results, (pr.2.rows.map (·.UID)).Nodup) :
    (AnnotatedVariantData.from_results base
        results).annotated_variant_data.length =
      (base.filter (fun r => results.all
        (fun pr => pr.2.rows.any (fun s => s.UID == r.UID)))).length := by
  unfold AnnotatedVariantData.from_results
  rw [foldl_mergeStep_length results _ h]
  rw [List.filter_map]
  rw [List.length_map]
  rfl

/-- Witness for C5 at a concrete input with unique UIDs per plugin: the
merged row count equals the count of base UIDs scored by every plugin
(here 1 of 2). -/
theorem C5_witness :
    (AnnotatedVariantData.from_results
      [⟨0, "1", 5, "A", "C", .hg19, .snp⟩, ⟨1, "1", 6, "A", "C", .hg19, .snp⟩]
      [(⟨"P5w", none, [.snp], ["1"], .hg19, [], .python "e.py", 1/2,
          "p5w.yaml"⟩, ⟨"P5w_SCORE", [⟨0, .num 1⟩]⟩)]
      ).annotated_variant_data.length =
    (([⟨0, "1", 5, "A", "C", .hg19, .snp⟩,
       ⟨1, "1", 6, "A", "C", .hg19, .snp⟩] : List VariantRow).filter
        (fun r => ([(⟨"P5w", none, [.snp], ["1"], .hg19, [], .python "e.py",
            1/2, "p5w.yaml"⟩, ⟨"P5w_SCORE", [⟨0, .num 1⟩]⟩)] :
              List (Plugin × PluginResult)).all
          (fun pr => pr.2.rows.any (fun s => s.UID == r.UID)))).length :=
  C5_merge_always_inner _ _ (by decide)

/-- With the default two-class map, the labels are `[1, 0]` and the
named cells are the four `sklearn` counts in ravel order
(`tn, fp, fn, tp = cm.ravel()` with labels sorted descending). -/
theorem confusionMatrix_default_named (scores : List ℚ) (cutoff : ℚ)
    (truth : List ℤ) :
    (ConfusionMatrix.calculate scores cutoff truth
        default_pathogencity_class_map).1.named =
      some ⟨countCell (truth.zip (Score.interpret scores cutoff)) 1 1,
            countCell (truth.zip (Score.interpret scores cutoff)) 1 0,
            countCell (truth.zip (Score.interpret scores cutoff)) 0 1,
            countCell (truth.zip (Score.interpret scores cutoff)) 0 0⟩ := rfl

/-- Every pair whose components lie in {0, 1} is counted in exactly one
of the four confusion-matrix cells. -/
theorem countCell_partition (pairs : List (ℤ × ℤ))
    (h : ∀ x ∈ pairs, (x.1 = 0 ∨ x.1 = 1) ∧ (x.2 = 0 ∨ x.2 = 1)) :
    countCell pairs 1 1 + countCell pairs 1 0 +
      countCell pairs 0 1 + countCell pairs 0 0 = pairs.length := by
  induction pairs with
  | nil => rfl
  | cons x xs ih =>
    have hx := h x (List.mem_cons_self _ _)
    have ihx := ih (fun y hy => h y (List.mem_cons_of_mem _ hy))
    unfold countCell at ihx ⊢
    rw [List.countP_cons, List.countP_cons, List.countP_cons,
      List.countP_cons, List.length_cons]
    rcases hx.1 with h1 | h1 <;> rcases hx.2 with h2 | h2 <;>
      simp only [h1, h2] <;> norm_num <;> omega

/-- Every interpreted score is class 0 or class 1. -/
theorem interpret_mem_01 (data : List ℚ) (c : ℚ) :
    ∀ v ∈ Score.interpret data c, v = 0 ∨ v = 1 := by
  intro v hv
  unfold Score.interpret at hv
  rw [List.mem_map] at hv
  obtain ⟨q, -, rfl⟩ := hv
  split
  · right; rfl
  · left; rfl

/-- C6: For a two-class interpretation the four confusion-matrix cells
sum to the evaluated row count; and in the concrete scenario — ground
truth [benign, benign, pathogenic, pathogenic], scores
[0.1, 0.6, 0.4, 0.9], cutoff 0.5 — the interpreted classes are
[0, 1, 0, 1], all four cells equal 1, and sensitivity and specificity
are both 0.5. -/
theorem C6_confusion_matrix (scores : List ℚ) (cutoff : ℚ) (truth : List ℤ)
    (hlen : truth.length = scores.length)
    (htruth : ∀ x ∈ truth, x = 0 ∨ x = 1) :
    (∃ cells, (ConfusionMatrix.calculate scores cutoff truth
        default_pathogencity_class_map).1.named = some cells ∧
      cells.tn + cells.fp + cells.fn + cells.tp = truth.length) ∧
    (Score.interpret [1/10, 6/10, 4/10, 9/10] (1/2) = [0, 1, 0, 1]) ∧
    ((ConfusionMatrix.calculate [1/10, 6/10, 4/10, 9/10] (1/2)
        ([.benign, .benign, .pathogenic, .pathogenic].map
          PathogencityClass.interpret)
        default_pathogencity_class_map).1.named = some ⟨1, 1, 1, 1⟩) ∧
    (Sensitivity.calculate [1/10, 6/10, 4/10, 9/10] (1/2)
        ([.benign, .benign, .pathogenic, .pathogenic].map
          PathogencityClass.interpret)
        default_pathogencity_class_map = some (1/2)) ∧
    (Specificity.calculate [1/10, 6/10, 4/10, 9/10] (1/2)
        ([.benign, .benign, .pathogenic, .pathogenic].map
          PathogencityClass.interpret)
        default_pathogencity_class_map = some (1/2)) := by
  have hi : Score.interpret [1/10, 6/10, 4/10, 9/10] (1/2) = [0, 1, 0, 1] := by
    norm_num [Score.interpret]
  refine ⟨?_, hi, ?_, ?_, ?_⟩
  · refine ⟨_, confusionMatrix_default_named scores cutoff truth, ?_⟩
    have hpairs : ∀ x ∈ truth.zip (Score.interpret scores cutoff),
        (x.1 = 0 ∨ x.1 = 1) ∧ (x.2 = 0 ∨ x.2 = 1) := by
      intro x hx
      obtain ⟨hx1, hx2⟩ := List.of_mem_zip hx
      exact ⟨htruth _ hx1, interpret_mem_01 scores cutoff _ hx2⟩
    have hsum := countCell_partition _ hpairs
    rw [hsum, List.length_zip, Score.interpret_length, ← hlen,
      Nat.min_self]
  · rw [show ([.benign, .benign, .pathogenic, .pathogenic].map
        PathogencityClass.interpret) = ([0, 0, 1, 1] : List ℤ) from rfl]
    rw [confusionMatrix_default_named, hi]
    decide
  · simp only [Sensitivity.calculate, show
      ([.benign, .benign, .pathogenic, .pathogenic].map
        PathogencityClass.interpret) = ([0, 0, 1, 1] : List ℤ) from rfl]
    rw [show (ConfusionMatrix.calculate [1/10, 6/10, 4/10, 9/10] (1/2)
        ([0, 0, 1, 1] : List ℤ) default_pathogencity_class_map).1.named =
      some ⟨1, 1, 1, 1⟩ from by rw [confusionMatrix_default_named, hi]; decide]
    norm_num
  · simp only [Specificity.calculate, show
      ([.benign, .benign, .pathogenic, .pathogenic].map
        PathogencityClass.interpret) = ([0, 0, 1, 1] : List ℤ) from rfl]
    rw [show (ConfusionMatrix.calculate [1/10, 6/10, 4/10, 9/10] (1/2)
        ([0, 0, 1, 1] : List ℤ) default_pathogencity_class_map).1.named =
      some ⟨1, 1, 1, 1⟩ from by rw [confusionMatrix_default_named, hi]; decide]
    norm_num

/-- Witness for C6 at ground truth [0, 1] with scores [0, 1] and cutoff
1/2: the four cells sum to the row count 2. -/
theorem C6_witness :
    ∃ cells, (ConfusionMatrix.calculate [0, 1] (1/2) [0, 1]
        default_pathogencity_class_map).1.named = some cells ∧
      cells.tn + cells.fp + cells.fn + cells.tp = ([0, 1] : List ℤ).length :=
  (C6_confusion_matrix [0, 1] (1/2) [0, 1] rfl (by decide)).1

/-- `validate_mandatory_keys` either passes or yields a missing-key
error naming the manifest path. -/
theorem validate_mandatory_cases (m : Manifest) :
    PluginBuilder.validate_mandatory_keys m = .ok () ∨
    ∃ k, PluginBuilder.validate_mandatory_keys m =
      .error (.missingKey k m.path) := by
  unfold PluginBuilder.validate_mandatory_keys
  split
  · exact Or.inr ⟨_, rfl⟩
  · split
    · exact Or.inr ⟨_, rfl⟩
    · split
      · exact Or.inr ⟨_, rfl⟩
      · split
        · exact Or.inr ⟨_, rfl⟩
        · exact Or.inl rfl

/-- C7: Building a plugin from a manifest missing a mandatory key
(`name`, `supported-variations`, `reference-genome`, `entry-point`, or
the entry point's `mode`) fails with an error naming the missing key and
the document path; an entry-point mode other than the recognized
"docker"/"python" variants (case-insensitive) makes `build_plugin`
fail — i.e. at load time, before any invocation. -/
theorem C7_manifest_validation (fs : String → String → Bool) (m : Manifest) :
    (m.name = none →
      PluginBuilder.build_plugin fs m = .error (.missingKey "name" m.path)) ∧
    (m.name.isSome → m.supported_variations = none →
      PluginBuilder.build_plugin fs m =
        .error (.missingKey "supported-variations" m.path)) ∧
    (m.name.isSome → m.supported_variations.isSome →
      m.reference_genome = none →
      PluginBuilder.build_plugin fs m =
        .error (.missingKey "reference-genome" m.path)) ∧
    (m.name.isSome → m.supported_variations.isSome →
      m.reference_genome.isSome → m.entry_point = none →
      PluginBuilder.build_plugin fs m =
        .error (.missingKey "entry-point" m.path)) ∧
    (∀ ep, m.entry_point = some ep → ep.mode = none →
      PluginBuilder.build_plugin fs m = .error (.missingModeKey m.path) ∨
      ∃ k, PluginBuilder.build_plugin fs m =
        .error (.missingKey k m.path)) ∧
    (∀ ep mo, m.entry_point = some ep → ep.mode = some mo →
      strLower mo ≠ "docker" → strLower mo ≠ "python" →
      PluginBuilder.build_plugin fs m = .error (.unknownMode mo m.path) ∨
      ∃ k, PluginBuilder.build_plugin fs m =
        .error (.missingKey k m.path)) := by
  refine ⟨?_, ?_, ?_, ?_, ?_, ?_⟩
  · intro h1
    unfold PluginBuilder.build_plugin PluginBuilder.validate_mandatory_keys
    rw [h1]
    rfl
  · intro h1 h2
    rcases hname : m.name with _ | nm
    · rw [hname] at h1; cases h1
    unfold PluginBuilder.build_plugin PluginBuilder.validate_mandatory_keys
    rw [hname, h2]
    rfl
  · intro h1 h2 h3
    rcases hname : m.name with _ | nm
    · rw [hname] at h1; cases h1
    rcases hvar : m.supported_variations with _ | vs
    · rw [hvar] at h2; cases h2
    unfold PluginBuilder.build_plugin PluginBuilder.validate_mandatory_keys
    rw [hname, hvar, h3]
    rfl
  · intro h1 h2 h3 h4
    rcases hname : m.name with _ | nm
    · rw [hname] at h1; cases h1
    rcases hvar : m.supported_variations with _ | vs
    · rw [hvar] at h2; cases h2
    rcases hrg : m.reference_genome with _ | rg
    · rw [hrg] at h3; cases h3
    unfold PluginBuilder.build_plugin PluginBuilder.validate_mandatory_keys
    rw [hname, hvar, hrg, h4]
    rfl
  · intro ep hep hmode
    rcases validate_mandatory_cases m with hval | ⟨k, hval⟩
    · left
      have hve : PluginBuilder.validate_entry_point m =
          .error (.missingModeKey m.path) := by
        unfold PluginBuilder.validate_entry_point
        rw [hep]
        dsimp only
        rw [hmode]
      unfold PluginBuilder.build_plugin
      rw [hval, hve]
    · right
      refine ⟨k, ?_⟩
      unfold PluginBuilder.build_plugin
      rw [hval]
  · intro ep mo hep hmode hd hp
    rcases validate_mandatory_cases m with hval | ⟨k, hval⟩
    · left
      have hdb : (strLower mo == "docker") = false := by simpa using hd
      have hpb : (strLower mo == "python") = false := by simpa using hp
      have hve : PluginBuilder.validate_entry_point m =
          .error (.unknownMode mo m.path) := by
        unfold PluginBuilder.validate_entry_point
        rw [hep]
        dsimp only
        rw [hmode]
        dsimp only
        rw [hdb, hpb]
        rfl
      unfold PluginBuilder.build_plugin
      rw [hval, hve]
    · right
      refine ⟨k, ?_⟩
      unfold PluginBuilder.build_plugin
      rw [hval]

/-- Witness for C7: a manifest with an unrecognized entry-point mode
"shell" fails at build (load) time with the unknown-mode error. -/
theorem C7_witness :
    PluginBuilder.build_plugin (fun _ _ => true)
      ⟨some "P7", some ["snp"], some "hg19",
        some ⟨some "shell", some "e.sh", none, none, none, none, []⟩,
        "p7.yaml", none, [], none, none, none⟩ =
      .error (.unknownMode "shell" "p7.yaml") := by
  rcases (C7_manifest_validation (fun _ _ => true)
      ⟨some "P7", some ["snp"], some "hg19",
        some ⟨some "shell", some "e.sh", none, none, none, none, []⟩,
        "p7.yaml", none, [], none, none, none⟩).2.2.2.2.2
      ⟨some "shell", some "e.sh", none, none, none, none, []⟩ "shell"
      rfl rfl (by decide) (by decide) with h | ⟨k, h⟩
  · exact h
  · rw [show PluginBuilder.build_plugin (fun _ _ => true)
      ⟨some "P7", some ["snp"], some "hg19",
        some ⟨some "shell", some "e.sh", none, none, none, none, []⟩,
        "p7.yaml", none, [], none, none, none⟩ =
      .error (.unknownMode "shell" "p7.yaml") from rfl] at h
    injection h with h2
    cases h2

/-- C8: A manifest that omits the optional `cutoff` and
`supported-chromosomes` keys builds to a plugin with cutoff 0.5 and a
chromosome set equal to the default ("1".."22", "X", "Y", "MT") minus
the optional `unsupported-chromosomes` exclusion list. -/
theorem C8_defaults (fs : String → String → Bool) (m : Manifest) (p : Plugin)
    (hb : PluginBuilder.build_plugin fs m = .ok p)
    (hcut : m.cutoff = none) (hchrom : m.supported_chromosomes = none) :
    p.cutoff = 1/2 ∧
    ∀ c, c ∈ p.supported_chromosomes ↔
      (c ∈ defaultChromosomes ∧
       c ∉ m.unsupported_chromosomes.getD []) := by
  unfold PluginBuilder.build_plugin at hb
  split at hb
  · cases hb
  · split at hb
    · cases hb
    · split at hb
      · cases hb
      · split at hb
        · cases hb
        · split at hb
          · cases hb
          · rw [hcut, hchrom] at hb
            injection hb with hb2
            rw [← hb2]
            refine ⟨rfl, ?_⟩
            intro c
            simp [List.mem_filter, List.elem_iff]

/-- Witness for C8: a concrete manifest omitting `cutoff` and
`supported-chromosomes` but excluding "X" builds with cutoff 1/2 and the
default chromosomes minus "X". -/
theorem C8_witness :
    (⟨"W8", none, [.snp],
        defaultChromosomes.filter (fun c => !(["X"] : List String).contains c),
        .hg19, [], .python "e.py", 1/2, "w8.yaml"⟩ : Plugin).cutoff = 1/2 ∧
    ∀ c, c ∈ (⟨"W8", none, [.snp],
        defaultChromosomes.filter (fun c => !(["X"] : List String).contains c),
        .hg19, [], .python "e.py", 1/2, "w8.yaml"⟩ :
          Plugin).supported_chromosomes ↔
      (c ∈ defaultChromosomes ∧ c ∉ (["X"] : List String)) :=
  C8_defaults (fun _ _ => true)
    ⟨some "W8", some ["snp"], some "hg19",
      some ⟨some "python", some "e.py", none, none, none, none, []⟩,
      "w8.yaml", none, [], none, none, some ["X"]⟩
    _ rfl rfl rfl

theorem ravel4_eq_none (l : List Nat) (h : l.length ≠ 4) : ravel4 l = none := by
  rcases l with - | ⟨a, l⟩
  · rfl
  rcases l with - | ⟨b, l⟩
  · rfl
  rcases l with - | ⟨c, l⟩
  · rfl
  rcases l with - | ⟨d, l⟩
  · rfl
  rcases l with - | ⟨e, l⟩
  · exact absurd rfl h
  · rfl

theorem cm_flatten_length (labels : List ℤ) (pairs : List (ℤ × ℤ)) :
    ((labels.map (fun a => labels.map
      (fun b => countCell pairs a b))).flatten).length =
      labels.length * labels.length := by
  rw [List.length_flatten, List.map_map]
  have hc : (List.length ∘ fun a => labels.map (fun b => countCell pairs a b)) =
      fun _ : ℤ => labels.length := by
    funext a
    simp
  rw [hc, List.map_const', List.sum_const_nat]

/-- `sq_ne_four`: a natural number other than 2 has a square other
than 4. -/
theorem sq_ne_four (k : Nat) (h : k ≠ 2) : k * k ≠ 4 := by
  intro hc
  rcases Nat.lt_or_ge k 3 with hk | hk
  · interval_cases k <;> simp_all
  · have h9 : 3 * 3 ≤ k * k := Nat.mul_le_mul hk hk
    omega

/-- C9, counterexample: with a three-class ground truth and class map,
`ConfusionMatrix.calculate` returns the raw matrix with no named cells —
but it issues no warning at all: the failed 4-way unpacking is swallowed
by `except Exception: pass`.  This refutes the claim that the
confusion-matrix capability warns the caller in the multiclass case. -/
theorem C9_counterexample :
    ((ConfusionMatrix.calculate [1/10, 6/10, 9/10] (1/2) [0, 1, 2]
      [("benign", 0), ("likely pathogenic", 1),
       ("pathogenic", 2)]).1.named = none) ∧
    ((ConfusionMatrix.calculate [1/10, 6/10, 9/10] (1/2) [0, 1, 2]
      [("benign", 0), ("likely pathogenic", 1),
       ("pathogenic", 2)]).2 = false) :=
  ⟨rfl, rfl⟩

/-- C9, amended: with more than two distinct class labels the
confusion-matrix capability returns the raw matrix without the named
tn/fp/fn/tp cells and issues NO caller warning (the unpacking failure is
silently swallowed); the ROC and precision-recall curve summaries do
return an empty result together with a warning whenever the
pathogenicity class map has more than two entries. -/
theorem C9_multiclass_behavior :
    (∀ (scores : List ℚ) (cutoff : ℚ) (truth : List ℤ)
        (classMap : List (String × ℤ)),
      (sortedLabelsDesc classMap).length ≠ 2 →
      (ConfusionMatrix.calculate scores cutoff truth classMap).1.named =
        none ∧
      (ConfusionMatrix.calculate scores cutoff truth classMap).2 = false) ∧
    (∀ (roc : List ℤ → List ℚ → List ℚ × List ℚ × List ℚ)
        (scores : List ℚ) (truth : List ℤ)
        (classMap : List (String × ℤ)),
      classMap.length > 2 →
      ROCCurve.calculate roc scores truth classMap = (none, true)) ∧
    (∀ (prc : List ℤ → List ℚ → List ℚ × List ℚ × List ℚ)
        (scores : List ℚ) (truth : List ℤ)
        (classMap : List (String × ℤ)),
      classMap.length > 2 →
      PrecisionRecallCurve.calculate prc scores truth classMap =
        (none, true)) := by
  refine ⟨?_, ?_, ?_⟩
  · intro scores cutoff truth classMap hk
    constructor
    · show ravel4 ((sortedLabelsDesc classMap).map (fun a =>
        (sortedLabelsDesc classMap).map (fun b =>
          countCell (truth.zip (Score.interpret scores cutoff)) a b))).flatten
        = none
      apply ravel4_eq_none
      rw [cm_flatten_length]
      exact sq_ne_four _ hk
    · rfl
  · intro roc scores truth classMap hk
    unfold ROCCurve.calculate
    rw [if_pos hk]
  · intro prc scores truth classMap hk
    unfold PrecisionRecallCurve.calculate
    rw [if_pos hk]

/-- Witness for C9 at the concrete three-class map: no named cells and
no warning from the confusion matrix; empty result plus warning from
both curve summaries. -/
theorem C9_witness :
    (((ConfusionMatrix.calculate [] (1/2) []
        [("benign", 0), ("likely pathogenic", 1),
         ("pathogenic", 2)]).1.named = none) ∧
     ((ConfusionMatrix.calculate [] (1/2) []
        [("benign", 0), ("likely pathogenic", 1),
         ("pathogenic", 2)]).2 = false)) ∧
    (ROCCurve.calculate (fun _ _ => ([], [], [])) [] []
      [("benign", 0), ("likely pathogenic", 1),
       ("pathogenic", 2)] = (none, true)) ∧
    (PrecisionRecallCurve.calculate (fun _ _ => ([], [], [])) [] []
      [("benign", 0), ("likely pathogenic", 1),
       ("pathogenic", 2)] = (none, true)) :=
  ⟨C9_multiclass_behavior.1 [] (1/2) []
      [("benign", 0), ("likely pathogenic", 1), ("pathogenic", 2)]
      (by decide),
   C9_multiclass_behavior.2.1 (fun _ _ => ([], [], [])) [] []
      [("benign", 0), ("likely pathogenic", 1), ("pathogenic", 2)]
      (by decide),
   C9_multiclass_behavior.2.2 (fun _ _ => ([], [], [])) [] []
      [("benign", 0), ("likely pathogenic", 1), ("pathogenic", 2)]
      (by decide)⟩

/-- The loading fold of `load_plugins`, characterized: successes append
to the plugin list, failures append a warning, independently of each
other. -/
theorem load_foldl_char (load : String → Except String Plugin)
    (ms : List String) (acc : List Plugin × List String) :
    ms.foldl
      (fun acc mp =>
        match load mp with
        | .ok p => (acc.1 ++ [p], acc.2)
        | .error e => (acc.1, acc.2 ++ [loadWarning mp e]))
      acc =
      (acc.1 ++ ms.filterMap (fun mp => (load mp).toOption),
       acc.2 ++ ms.filterMap (fun mp =>
         match load mp with
         | .ok _ => none
         | .error e => some (loadWarning mp e))) := by
  induction ms generalizing acc with
  | nil => simp
  | cons mp ms ih =>
    rw [List.foldl_cons]
    cases hl : load mp with
    | ok p =>
      rw [ih]
      rw [List.filterMap_cons, List.filterMap_cons, hl]
      simp [Except.toOption]
    | error e =>
      rw [ih]
      rw [List.filterMap_cons, List.filterMap_cons, hl]
      simp [Except.toOption]

/-- C10: `load_plugins` turns each manifest whose load raises into a
warning and skips it, loads every other manifest, and returns the
selection-filtered successfully loaded plugins: the loaded list is
exactly the successes (filtered by the selection) and the warnings are
exactly the failures; inserting a bad manifest anywhere leaves the
loaded plugins unchanged and adds exactly one warning. -/
theorem C10_load_isolation (load : String → Except String Plugin)
    (sel : Option (Plugin → Bool)) :
    (∀ ms, load_plugins load ms sel =
      (applySelection sel (ms.filterMap (fun mp => (load mp).toOption)),
       ms.filterMap (fun mp =>
         match load mp with
         | .ok _ => none
         | .error e => some (loadWarning mp e)))) ∧
    (∀ pre post bad, (load bad).isOk = false →
      (load_plugins load (pre ++ bad :: post) sel).1 =
        (load_plugins load (pre ++ post) sel).1 ∧
      (load_plugins load (pre ++ bad :: post) sel).2.length =
        (load_plugins load (pre ++ post) sel).2.length + 1) := by
  have hchar : ∀ ms, load_plugins load ms sel =
      (applySelection sel (ms.filterMap (fun mp => (load mp).toOption)),
       ms.filterMap (fun mp =>
         match load mp with
         | .ok _ => none
         | .error e => some (loadWarning mp e))) := by
    intro ms
    unfold load_plugins
    rw [load_foldl_char load ms ([], [])]
    simp
  refine ⟨hchar, ?_⟩
  intro pre post bad hbad
  cases hload : load bad with
  | ok p =>
    rw [hload] at hbad
    cases hbad
  | error e =>
    constructor
    · rw [hchar (pre ++ bad :: post), hchar (pre ++ post)]
      simp [List.filterMap_append, List.filterMap_cons, hload,
        Except.toOption]
    · rw [hchar (pre ++ bad :: post), hchar (pre ++ post)]
      simp [List.filterMap_append, List.filterMap_cons, hload]
      omega

/-- Witness for C10: with a loader failing exactly on "bad.yaml",
inserting that manifest between two good ones leaves the loaded plugins
unchanged and adds one warning. -/
theorem C10_witness :
    ((load_plugins
        (fun mp => if mp == "bad.yaml" then .error "broken" else
          .ok ⟨mp, none, [.snp], ["1"], .hg19, [], .python "e.py", 1/2, mp⟩)
        (["a.yaml"] ++ "bad.yaml" :: ["b.yaml"]) none).1 =
      (load_plugins
        (fun mp => if mp == "bad.yaml" then .error "broken" else
          .ok ⟨mp, none, [.snp], ["1"], .hg19, [], .python "e.py", 1/2, mp⟩)
        (["a.yaml"] ++ ["b.yaml"]) none).1) ∧
    ((load_plugins
        (fun mp => if mp == "bad.yaml" then .error "broken" else
          .ok ⟨mp, none, [.snp], ["1"], .hg19, [], .python "e.py", 1/2, mp⟩)
        (["a.yaml"] ++ "bad.yaml" :: ["b.yaml"]) none).2.length =
      (load_plugins
        (fun mp => if mp == "bad.yaml" then .error "broken" else
          .ok ⟨mp, none, [.snp], ["1"], .hg19, [], .python "e.py", 1/2, mp⟩)
        (["a.yaml"] ++ ["b.yaml"]) none).2.length + 1) :=
  (C10_load_isolation
    (fun mp => if mp == "bad.yaml" then .error "broken" else
      .ok ⟨mp, none, [.snp], ["1"], .hg19, [], .python "e.py", 1/2, mp⟩)
    none).2 ["a.yaml"] ["b.yaml"] "bad.yaml" rfl

end VPMBench
